import Mathlib

/-!
Shallow embedding of `src/main.py` (Pimoroni Presto AI image gallery):
an endless slideshow that fetches generated images over HTTP, saves them
to SD, fades the backlight out over the old image and in over the new
one, and deletes the superseded file.  External collaborators (network,
SD card, JPEG decoder, display) are modelled by oracle parameters; the
observable behaviour of each cycle is an event trace.
-/

/-- Events observable at the boundaries with the collaborators
(display driver, backlight, SD card, network), in program order. -/
inductive Event where
  | displayText (msg : String)
  | fetch (prompt : String) (ok : Bool)
  | writeFile (path : String)
  | setLayer (layer : Nat)
  | decode (path : String) (x y : Int)
  | decodeError (path : String)
  | setBacklight (b : ℚ)
  | present
  | clearBlack
  | deleteFile (path : String) (ok : Bool)
  | sleepSeconds (t : ℚ)
  deriving DecidableEq, Repr

/-- Source `brightness_steps = [i / 10.0 for i in range(11)]` (main.py lines 104, 122). -/
def brightness_steps : List ℚ := (List.range 11).map (fun i => (i : ℚ) / 10)

/-- Source `step_delay = 1.5 / len(brightness_steps)` (main.py lines 105, 123). -/
def step_delay : ℚ := (3 / 2) / (brightness_steps.length : ℚ)

/-- The Presto display bounds and JPEG intrinsic size oracle for the
decoder collaborator: `decodeOk p` says whether `jpeg.open_file(p)` and
`jpeg.decode` succeed on that file, `dims p` is `(get_width, get_height)`. -/
structure RenderEnv where
  decodeOk : String → Bool
  dims : String → Nat × Nat

/-- The two JPEG decoder scale factors used by the source. -/
inductive Scale where
  | full
  | half
  deriving DecidableEq, Repr

/-- Source `scale = JPEG_SCALE_HALF if img_width > WIDTH or img_height > HEIGHT
else JPEG_SCALE_FULL` (main.py line 143). -/
def chooseScale (W H w h : Nat) : Scale :=
  if w > W || h > H then Scale.half else Scale.full

/-- Source `img_width // (2 if scale == JPEG_SCALE_HALF else 1)`
(main.py lines 144-145). -/
def scaledDim (scale : Scale) (d : Nat) : Nat :=
  d / (if scale = Scale.half then 2 else 1)

/-- Source `img_x = (WIDTH - scaled_width) // 2` (main.py lines 146-147):
Python `//` on ints is floor division, hence `Int.fdiv`. -/
def imgOffset (D d : Nat) : Int :=
  ((D : Int) - (d : Int)).fdiv 2

/-- The `jpeg.decode(img_x, img_y, scale, dither=True)` call of
`display_image_on_layer` (main.py lines 142-148) with the placement
computed from the image's intrinsic dimensions. -/
def decode_event (r : RenderEnv) (W H : Nat) (filepath : String) : Event :=
  let wh := r.dims filepath
  let scale := chooseScale W H wh.1 wh.2
  Event.decode filepath (imgOffset W (scaledDim scale wh.1))
    (imgOffset H (scaledDim scale wh.2))

/-- Source `display_image_on_layer(filepath, layer)` (main.py lines 135-150):
selects the layer, then opens, measures, places and decodes the JPEG;
any exception in the `try` block is caught and only logged. -/
def display_image_on_layer (r : RenderEnv) (W H : Nat) (filepath : String)
    (layer : Nat) : List Event :=
  if r.decodeOk filepath then
    [Event.setLayer layer, decode_event r W H filepath]
  else
    [Event.setLayer layer, Event.decodeError filepath]

/-- One step of a backlight ramp: `presto.set_backlight(brightness);
presto.update(); sleep(step_delay)` (main.py lines 109-112, 127-130). -/
def rampEvents (steps : List ℚ) : List Event :=
  steps.flatMap (fun b =>
    [Event.setBacklight b, Event.present, Event.sleepSeconds step_delay])

/-- Source `fade_out_image(filepath)` (main.py lines 100-116): re-decode the
outgoing image on layer 0, ramp the backlight down 1.0 → 0.0, then clear
the screen to black and present. -/
def fade_out_image (r : RenderEnv) (W H : Nat) (filepath : String) :
    List Event :=
  display_image_on_layer r W H filepath 0
    ++ rampEvents brightness_steps.reverse
    ++ [Event.clearBlack, Event.present]

/-- Source `fade_in_image(filepath)` (main.py lines 118-133): decode the new
image on layer 0, ramp the backlight up 0.0 → 1.0, then pin the
backlight to exactly 1.0 and present. -/
def fade_in_image (r : RenderEnv) (W H : Nat) (filepath : String) :
    List Event :=
  display_image_on_layer r W H filepath 0
    ++ rampEvents brightness_steps
    ++ [Event.setBacklight 1, Event.present]

/-- The backlight values a trace writes to the shared control, in order. -/
def backlights (evs : List Event) : List ℚ :=
  evs.filterMap (fun e =>
    match e with
    | Event.setBacklight b => some b
    | _ => none)

/-- Python's `s.replace(old, new)` for a single-character `old` and
single-character `new`: replaces every occurrence. -/
def replaceChar (c r : Char) (s : String) : String :=
  String.mk (s.data.map (fun a => if a = c then r else a))

/-- Python's `s.replace(old, new)` for a single-character `old` and a
string `new`: replaces every occurrence. -/
def replaceCharStr (c : Char) (r : String) (s : String) : String :=
  String.mk (s.data.flatMap (fun a => if a = c then r.data else [a]))

/-- Source `SD_DIR = "/sd/gallery"` (main.py line 19). -/
def SD_DIR : String := "/sd/gallery"

/-- Source `prompts` (main.py lines 22-33). -/
def prompts : List String :=
  ["synthwave style new retro wave city scapes at night",
   "vaporwave aesthetic city skyline with neon lights",
   "cyberpunk futuristic metropolis with glowing buildings",
   "retrofuturistic space station with vibrant colors",
   "neon-lit arcade scene with futuristic machines",
   "80s-style synthwave desert landscape with neon sun",
   "futuristic train station with glowing lights",
   "nighttime beach with neon palm trees and synthwave style",
   "cyberpunk city streets with vibrant holograms",
   "retro wave sci-fi space with glowing planets and stars"]

/-- Source `generate_unique_prompt(base_prompt)` (main.py lines 58-63):
`f"{base_prompt} {int(time())}"`; the clock reading is an oracle input. -/
def generate_unique_prompt (t : Nat) (base : String) : String :=
  base ++ " " ++ toString t

/-- Source `url = f"https://image.pollinations.ai/prompt/{prompt.replace(' ', '%20')}"`
(main.py line 69). -/
def fetch_url (prompt : String) : String :=
  "https://image.pollinations.ai/prompt/" ++ replaceCharStr ' ' "%20" prompt

/-- Source `fetch_image(prompt)` (main.py lines 65-81): issues the GET; `ok`
says whether it returned status 200 with truthy content (failures —
exceptions and non-200 statuses — are caught and yield `None`). -/
def fetch_image (ok : Bool) (prompt : String) : List Event :=
  [Event.fetch (fetch_url prompt) ok]

/-- Source `filepath = f"{SD_DIR}/{prompt.replace(' ', '_')}_{timestamp}.jpg"`
(main.py lines 88-90). -/
def save_filepath (t : Nat) (prompt : String) : String :=
  SD_DIR ++ "/" ++ replaceChar ' ' '_' prompt ++ "_" ++ toString t ++ ".jpg"

/-- Source `save_image_to_sd(prompt, image_data)` (main.py lines 83-98): writes
the bytes and returns the path, or returns `None` when the write raises
`OSError` (caught and logged); `ok` is the storage oracle. -/
def save_image_to_sd (ok : Bool) (t : Nat) (prompt : String) :
    Option String × List Event :=
  if ok then
    (some (save_filepath t prompt), [Event.writeFile (save_filepath t prompt)])
  else
    (none, [])

/-- The mutable locals of `endless_photo_viewer`'s loop
(main.py lines 210-212). -/
structure LoopState where
  promptIndex : Nat
  prevFilepath : Option String
  firstImage : Bool
  deriving DecidableEq, Repr

/-- Oracle outcomes of one loop iteration's interactions with the clock,
the network, the SD card and the JPEG decoder. `time` is the
`int(time())` read by `generate_unique_prompt`, `timeSave` the separate
read inside `save_image_to_sd`. -/
structure CycleEnv where
  time : Nat
  timeSave : Nat
  fetchOk : Bool
  saveOk : Bool
  render : RenderEnv
  deleteOk : Bool

/-- One iteration of the `while True` loop of `endless_photo_viewer`
(main.py lines 214-249), returning the updated locals and the event
trace of the iteration. -/
def runCycle (W H : Nat) (ps : List String) (env : CycleEnv)
    (s : LoopState) : LoopState × List Event :=
  let base := ps.getD s.promptIndex ""
  let uniquePrompt := generate_unique_prompt env.time base
  let firstEvs :=
    if s.firstImage then [Event.displayText "Fetching Image..."] else []
  let fetchEvs := fetch_image env.fetchOk uniquePrompt
  let body :=
    if env.fetchOk then
      match save_image_to_sd env.saveOk env.timeSave uniquePrompt with
      | (some nextFilepath, saveEvs) =>
        let fadeOutEvs :=
          match s.prevFilepath with
          | some prev => fade_out_image env.render W H prev
          | none => []
        let fadeInEvs := fade_in_image env.render W H nextFilepath
        let deleteEvs :=
          match s.prevFilepath with
          | some prev => [Event.deleteFile prev env.deleteOk]
          | none => []
        ({ s with prevFilepath := some nextFilepath },
          saveEvs ++ fadeOutEvs ++ fadeInEvs ++ deleteEvs)
      | (none, saveEvs) => (s, saveEvs)
    else (s, ([] : List Event))
  ({ promptIndex := (body.1.promptIndex + 1) % ps.length,
     prevFilepath := body.1.prevFilepath,
     firstImage := false },
   firstEvs ++ fetchEvs ++ body.2 ++ [Event.sleepSeconds 7])

/-- The path `save_image_to_sd` produces for the cycle's unique prompt:
the file the new image is written to when the save succeeds. -/
def next_filepath_of (ps : List String) (env : CycleEnv) (s : LoopState) :
    String :=
  save_filepath env.timeSave
    (generate_unique_prompt env.time (ps.getD s.promptIndex ""))

/-- A finite prefix of the infinite `while True` loop: run one iteration
per supplied oracle environment. -/
def runCycles (W H : Nat) (ps : List String) :
    List CycleEnv → LoopState → LoopState × List Event
  | [], s => (s, [])
  | env :: rest, s =>
    let c := runCycle W H ps env s
    let c' := runCycles W H ps rest c.1
    (c'.1, c.2 ++ c'.2)

/-- Source `connect_to_wifi()` (main.py lines 152-166): blocks until connected
(the retry loop is collapsed into its "eventually connected" outcome,
which is all the loop depends on), then shows the IP. -/
def connect_to_wifi (ip : String) : List Event :=
  [Event.displayText "Connecting to Wi-Fi...",
   Event.displayText ("Wi-Fi Connected\nIP: " ++ ip)]

/-- Source `mount_sd()` (main.py lines 168-184): any exception from the SPI/SD
setup or `uos.mount` is caught; either way the function returns and the
caller continues. -/
def mount_sd (mountOk : Bool) : List Event :=
  if mountOk then
    [Event.displayText "Initializing SD Card...",
     Event.displayText "SD Card Mounted"]
  else
    [Event.displayText "Initializing SD Card...",
     Event.displayText "SD Card Mount Failed"]

/-- Source `clear_gallery()` (main.py lines 186-199): lists the gallery
directory and deletes every entry; an `OSError` (e.g. listing an
unmounted directory) is caught and logged. -/
def clear_gallery (listOk : Bool) (files : List String) : List Event :=
  if listOk then
    Event.displayText "Clearing Gallery..."
      :: files.map (fun f => Event.deleteFile (SD_DIR ++ "/" ++ f) true)
      ++ [Event.displayText "Gallery Cleared"]
  else
    [Event.displayText "Clearing Gallery..."]

/-- Source `endless_photo_viewer()` (main.py lines 201-249): startup
(Wi-Fi, SD mount, gallery clear) followed by the slideshow loop, run
over a finite list of per-cycle oracle environments. -/
def endless_photo_viewer (W H : Nat) (ps : List String) (ip : String)
    (mountOk listOk : Bool) (files : List String)
    (envs : List CycleEnv) : LoopState × List Event :=
  let startEvs :=
    connect_to_wifi ip ++ mount_sd mountOk ++ clear_gallery listOk files
  let c := runCycles W H ps envs ⟨0, none, true⟩
  (c.1, startEvs ++ c.2)

/-- A decoder oracle on which every file decodes, with fixed intrinsic
dimensions 100×80 (fits a 240×240 display at full scale). -/
def okRender : RenderEnv := ⟨fun _ => true, fun _ => (100, 80)⟩

/-- A cycle environment in which every collaborator succeeds. -/
def okEnv : CycleEnv := ⟨1, 2, true, true, okRender, true⟩

/-- A loop state with a previous settled image on file. -/
def prevState : LoopState := ⟨0, some "/sd/gallery/old.jpg", false⟩

/-- A decoder oracle on which exactly the previously settled file
decodes; the newly fetched file is corrupt. -/
def badNewRender : RenderEnv :=
  ⟨fun p => p == "/sd/gallery/old.jpg", fun _ => (100, 80)⟩

/-- A cycle environment whose fetch and save succeed but whose new
image fails to decode. -/
def badNewEnv : CycleEnv := ⟨1, 2, true, true, badNewRender, true⟩

/-- A cycle environment whose fetch fails. -/
def fetchFailEnv : CycleEnv := ⟨1, 2, false, true, okRender, true⟩

/-- A cycle environment whose fetch succeeds but whose SD write fails. -/
def saveFailEnv : CycleEnv := ⟨1, 2, true, false, okRender, true⟩

/-- The two backlight ramps the loop runs between a previous settled
image and a new one: `fade_out_image(prev_filepath)` then
`fade_in_image(next_filepath)` (main.py lines 230-234). -/
def cross_fade_events (r : RenderEnv) (W H : Nat) (prev next : String) :
    List Event :=
  fade_out_image r W H prev ++ fade_in_image r W H next

/-- Recognizer for the sleep events inside a ramp. -/
def isSleepEvent : Event → Bool
  | Event.sleepSeconds _ => true
  | _ => false

theorem backlights_append (l1 l2 : List Event) :
    backlights (l1 ++ l2) = backlights l1 ++ backlights l2 := by
  simp [backlights]

theorem backlights_ramp (steps : List ℚ) :
    backlights (rampEvents steps) = steps := by
  induction steps with
  | nil => rfl
  | cons b rest ih => simpa [rampEvents, backlights] using ih

theorem backlights_display (r : RenderEnv) (W H : Nat) (p : String)
    (n : Nat) : backlights (display_image_on_layer r W H p n) = [] := by
  by_cases h : r.decodeOk p <;>
    simp [display_image_on_layer, decode_event, h, backlights]

theorem backlights_fade_out (r : RenderEnv) (W H : Nat) (p : String) :
    backlights (fade_out_image r W H p) = brightness_steps.reverse := by
  simp only [fade_out_image, backlights_append, backlights_display,
    backlights_ramp, List.nil_append]
  simp [backlights]

theorem backlights_fade_in (r : RenderEnv) (W H : Nat) (p : String) :
    backlights (fade_in_image r W H p) = brightness_steps ++ [1] := by
  simp only [fade_in_image, backlights_append, backlights_display,
    backlights_ramp, List.nil_append]
  simp [backlights]

theorem brightness_steps_eq :
    brightness_steps =
      [0, 1/10, 1/5, 3/10, 2/5, 1/2, 3/5, 7/10, 4/5, 9/10, 1] := by
  norm_num [brightness_steps, List.range_succ]

/-- C2: In every cycle whose fetch and save succeed, whose decode of
the new file succeeds, and which has a previous settled image `p`, the
trace is: (status text and fetch), the write of the new file, the
fade-out of `p`, the fade-in of the new file, the deletion of `p`, the
inter-cycle sleep — so the file is written before it is decoded, the
fade-in (decode first, ramp, final present) completes before `p`'s file
is deleted, and the new layer's decode precedes every present of its
fade-in. -/
theorem spec_C2 (W H : Nat) (ps : List String) (env : CycleEnv)
    (s : LoopState) (p : String)
    (hf : env.fetchOk = true) (hs : env.saveOk = true)
    (hp : s.prevFilepath = some p)
    (hd : env.render.decodeOk (next_filepath_of ps env s) = true) :
    (∃ pre, (runCycle W H ps env s).2 =
      pre ++ [Event.writeFile (next_filepath_of ps env s)]
        ++ fade_out_image env.render W H p
        ++ fade_in_image env.render W H (next_filepath_of ps env s)
        ++ [Event.deleteFile p env.deleteOk, Event.sleepSeconds 7])
    ∧ fade_in_image env.render W H (next_filepath_of ps env s) =
        Event.setLayer 0
          :: decode_event env.render W H (next_filepath_of ps env s)
          :: (rampEvents brightness_steps
              ++ [Event.setBacklight 1, Event.present]) := by
  constructor
  · refine ⟨(if s.firstImage then [Event.displayText "Fetching Image..."]
        else [])
      ++ fetch_image env.fetchOk
        (generate_unique_prompt env.time (ps.getD s.promptIndex "")), ?_⟩
    simp [runCycle, save_image_to_sd, next_filepath_of, hf, hs, hp]
  · simp [fade_in_image, display_image_on_layer, hd]

/-- Witness for C2 at a fully successful concrete cycle. -/
theorem spec_C2_witness :
    (∃ pre, (runCycle 240 240 ["a"] okEnv prevState).2 =
      pre ++ [Event.writeFile (next_filepath_of ["a"] okEnv prevState)]
        ++ fade_out_image okEnv.render 240 240 "/sd/gallery/old.jpg"
        ++ fade_in_image okEnv.render 240 240
            (next_filepath_of ["a"] okEnv prevState)
        ++ [Event.deleteFile "/sd/gallery/old.jpg" okEnv.deleteOk,
            Event.sleepSeconds 7])
    ∧ fade_in_image okEnv.render 240 240
        (next_filepath_of ["a"] okEnv prevState) =
        Event.setLayer 0
          :: decode_event okEnv.render 240 240
              (next_filepath_of ["a"] okEnv prevState)
          :: (rampEvents brightness_steps
              ++ [Event.setBacklight 1, Event.present]) :=
  spec_C2 240 240 ["a"] okEnv prevState "/sd/gallery/old.jpg"
    rfl rfl rfl rfl

theorem runCycle_success_trace (W H : Nat) (ps : List String)
    (env : CycleEnv) (s : LoopState) (p : String)
    (hf : env.fetchOk = true) (hs : env.saveOk = true)
    (hp : s.prevFilepath = some p) :
    (runCycle W H ps env s).2 =
      (if s.firstImage then [Event.displayText "Fetching Image..."] else [])
      ++ fetch_image env.fetchOk
          (generate_unique_prompt env.time (ps.getD s.promptIndex ""))
      ++ [Event.writeFile (next_filepath_of ps env s)]
      ++ fade_out_image env.render W H p
      ++ fade_in_image env.render W H (next_filepath_of ps env s)
      ++ [Event.deleteFile p env.deleteOk, Event.sleepSeconds 7] := by
  simp [runCycle, save_image_to_sd, next_filepath_of, hf, hs, hp]

theorem runCycle_success_state (W H : Nat) (ps : List String)
    (env : CycleEnv) (s : LoopState)
    (hf : env.fetchOk = true) (hs : env.saveOk = true) :
    (runCycle W H ps env s).1 =
      ⟨(s.promptIndex + 1) % ps.length,
       some (next_filepath_of ps env s), false⟩ := by
  simp [runCycle, save_image_to_sd, next_filepath_of, hf, hs]

theorem runCycle_first_trace (W H : Nat) (ps : List String)
    (env : CycleEnv) (s : LoopState)
    (hf : env.fetchOk = true) (hs : env.saveOk = true)
    (hp : s.prevFilepath = none) :
    (runCycle W H ps env s).2 =
      (if s.firstImage then [Event.displayText "Fetching Image..."] else [])
      ++ fetch_image env.fetchOk
          (generate_unique_prompt env.time (ps.getD s.promptIndex ""))
      ++ [Event.writeFile (next_filepath_of ps env s)]
      ++ fade_in_image env.render W H (next_filepath_of ps env s)
      ++ [Event.sleepSeconds 7] := by
  simp [runCycle, save_image_to_sd, next_filepath_of, hf, hs, hp]

theorem brightness_steps_bounds :
    ∀ b ∈ brightness_steps, 0 ≤ b ∧ b ≤ 1 := by
  intro b hb
  have hb' : b ∈ (List.range 11).map (fun i : Nat => (i : ℚ) / 10) := hb
  rcases List.mem_map.mp hb' with ⟨i, hi, hbe⟩
  rw [List.mem_range] at hi
  subst hbe
  have h10 : (i : ℚ) ≤ 10 := by exact_mod_cast Nat.lt_succ_iff.mp hi
  constructor
  · positivity
  · rw [div_le_one (by norm_num)]
    exact h10

/-- C1 counterexample: a cycle whose fetch and save succeed but
whose new file fails to decode is not skipped: the decode error is
swallowed, the previous image's file is nonetheless deleted, and the
undecodable new file becomes the settled image. -/
theorem spec_C1_counterexample :
    Event.decodeError "/sd/gallery/a_1_2.jpg"
        ∈ (runCycle 240 240 ["a"] badNewEnv prevState).2
    ∧ Event.deleteFile "/sd/gallery/old.jpg" true
        ∈ (runCycle 240 240 ["a"] badNewEnv prevState).2
    ∧ (runCycle 240 240 ["a"] badNewEnv prevState).1.prevFilepath
        = some "/sd/gallery/a_1_2.jpg" := by
  refine ⟨?_, ?_, ?_⟩ <;> decide

/-- C1 amended: when the new image's decode fails (fetch and save
having succeeded, with a previous settled image `p`), the cycle still
runs to completion exactly as on success: the decode error is logged,
both backlight ramps run in full, `p`'s backing file is deleted anyway,
and the undecodable file becomes the new settled file. -/
theorem spec_C1_amended (W H : Nat) (ps : List String) (env : CycleEnv)
    (s : LoopState) (p : String)
    (hf : env.fetchOk = true) (hs : env.saveOk = true)
    (hp : s.prevFilepath = some p)
    (hd : env.render.decodeOk (next_filepath_of ps env s) = false) :
    Event.decodeError (next_filepath_of ps env s)
        ∈ (runCycle W H ps env s).2
    ∧ Event.deleteFile p env.deleteOk ∈ (runCycle W H ps env s).2
    ∧ (runCycle W H ps env s).1.prevFilepath
        = some (next_filepath_of ps env s)
    ∧ backlights (runCycle W H ps env s).2
        = brightness_steps.reverse ++ (brightness_steps ++ [1]) := by
  have ht := runCycle_success_trace W H ps env s p hf hs hp
  refine ⟨?_, ?_, ?_, ?_⟩
  · rw [ht]
    simp [fade_in_image, display_image_on_layer, hd]
  · rw [ht]
    simp
  · rw [runCycle_success_state W H ps env s hf hs]
  · rw [ht]
    simp only [backlights_append, backlights_fade_out, backlights_fade_in]
    cases hfi : s.firstImage <;> simp [hfi, backlights, fetch_image]

/-- Witness for the amended C1 at a concrete cycle whose new file is
corrupt. -/
theorem spec_C1_amended_witness :
    Event.decodeError (next_filepath_of ["a"] badNewEnv prevState)
        ∈ (runCycle 240 240 ["a"] badNewEnv prevState).2
    ∧ Event.deleteFile "/sd/gallery/old.jpg" badNewEnv.deleteOk
        ∈ (runCycle 240 240 ["a"] badNewEnv prevState).2
    ∧ (runCycle 240 240 ["a"] badNewEnv prevState).1.prevFilepath
        = some (next_filepath_of ["a"] badNewEnv prevState)
    ∧ backlights (runCycle 240 240 ["a"] badNewEnv prevState).2
        = brightness_steps.reverse ++ (brightness_steps ++ [1]) :=
  spec_C1_amended 240 240 ["a"] badNewEnv prevState "/sd/gallery/old.jpg"
    rfl rfl rfl (by decide)

/-- C3 counterexample: in the transition between a settled image
and a new one, the backlight is written to 0 at intermediate steps
(positions 10 and 11 of 23) and the screen is cleared to black between
the two ramps, so the viewer does see a fully black frame mid-transition. -/
theorem spec_C3_counterexample :
    (backlights (cross_fade_events okRender 240 240 "/sd/gallery/old.jpg"
        "/sd/gallery/new.jpg")).get? 10 = some 0
    ∧ (backlights (cross_fade_events okRender 240 240 "/sd/gallery/old.jpg"
        "/sd/gallery/new.jpg")).get? 11 = some 0
    ∧ (backlights (cross_fade_events okRender 240 240 "/sd/gallery/old.jpg"
        "/sd/gallery/new.jpg")).length = 23
    ∧ Event.clearBlack ∈ cross_fade_events okRender 240 240
        "/sd/gallery/old.jpg" "/sd/gallery/new.jpg" := by
  have hb : backlights (cross_fade_events okRender 240 240
      "/sd/gallery/old.jpg" "/sd/gallery/new.jpg")
      = brightness_steps.reverse ++ (brightness_steps ++ [1]) := by
    simp [cross_fade_events, backlights_append, backlights_fade_out,
      backlights_fade_in]
  refine ⟨?_, ?_, ?_, ?_⟩
  · rw [hb, brightness_steps_eq]
    simp
  · rw [hb, brightness_steps_eq]
    simp
  · rw [hb, brightness_steps_eq]
    simp
  · simp [cross_fade_events, fade_out_image]

/-- C3 amended: the transition is not a cross-fade: it is a
fade-out of the old image to a fully black, cleared screen followed by
a fade-in of the new image.  The backlight sequence is the descending
ramp, then the ascending ramp, then the pin at 1: every value stays
within [0, 1] (never double-bright), the transition ends at exactly
full brightness showing only the new image, but fully black frames do
occur mid-transition. -/
theorem spec_C3_amended (r : RenderEnv) (W H : Nat) (prev next : String) :
    backlights (cross_fade_events r W H prev next)
      = brightness_steps.reverse ++ (brightness_steps ++ [1])
    ∧ (∀ b ∈ backlights (cross_fade_events r W H prev next),
        0 ≤ b ∧ b ≤ 1)
    ∧ (backlights (cross_fade_events r W H prev next)).getLast? = some 1
    ∧ (backlights (cross_fade_events r W H prev next)).get? 10 = some 0
    ∧ Event.clearBlack ∈ cross_fade_events r W H prev next := by
  have hb : backlights (cross_fade_events r W H prev next)
      = brightness_steps.reverse ++ (brightness_steps ++ [1]) := by
    simp [cross_fade_events, backlights_append, backlights_fade_out,
      backlights_fade_in]
  refine ⟨hb, ?_, ?_, ?_, ?_⟩
  · intro b hbmem
    rw [hb] at hbmem
    rcases List.mem_append.mp hbmem with h | h
    · exact brightness_steps_bounds b (List.mem_reverse.mp h)
    · rcases List.mem_append.mp h with h' | h'
      · exact brightness_steps_bounds b h'
      · simp only [List.mem_singleton] at h'
        subst h'
        norm_num
  · rw [hb, brightness_steps_eq]
    simp
  · rw [hb, brightness_steps_eq]
    simp
  · simp [cross_fade_events, fade_out_image]

/-- Witness for the amended C3 at a concrete transition. -/
theorem spec_C3_amended_witness :
    (0 ≤ (1 : ℚ) ∧ (1 : ℚ) ≤ 1)
    ∧ (backlights (cross_fade_events okRender 240 240 "p.jpg"
        "q.jpg")).getLast? = some 1 :=
  ⟨(spec_C3_amended okRender 240 240 "p.jpg" "q.jpg").2.1 1
      (by rw [(spec_C3_amended okRender 240 240 "p.jpg" "q.jpg").1]; simp),
   (spec_C3_amended okRender 240 240 "p.jpg" "q.jpg").2.2.1⟩

theorem mem_ramp_cases (steps : List ℚ) (e : Event) :
    e ∈ rampEvents steps →
      (∃ b, e = Event.setBacklight b) ∨ e = Event.present
        ∨ e = Event.sleepSeconds step_delay := by
  induction steps with
  | nil => intro h; simp [rampEvents] at h
  | cons b rest ih =>
    intro h
    simp only [rampEvents, List.flatMap_cons, List.mem_append,
      List.mem_cons, List.not_mem_nil, or_false] at h
    rcases h with (h | h | h) | h
    · exact Or.inl ⟨b, h⟩
    · exact Or.inr (Or.inl h)
    · exact Or.inr (Or.inr h)
    · exact ih h

theorem sleep_mem_ramp (steps : List ℚ) (t : ℚ)
    (h : Event.sleepSeconds t ∈ rampEvents steps) : t = step_delay := by
  rcases mem_ramp_cases steps _ h with ⟨b, hb⟩ | h' | h'
  · exact Event.noConfusion hb
  · exact Event.noConfusion h'
  · simpa using h'

theorem countP_sleep_ramp (steps : List ℚ) :
    (rampEvents steps).countP isSleepEvent = steps.length := by
  induction steps with
  | nil => rfl
  | cons b rest ih =>
    simp only [rampEvents, List.flatMap_cons] at ih ⊢
    simp [List.countP_append, List.countP_cons, isSleepEvent, ih]

theorem countP_sleep_display (r : RenderEnv) (W H : Nat) (p : String)
    (n : Nat) :
    (display_image_on_layer r W H p n).countP isSleepEvent = 0 := by
  by_cases h : r.decodeOk p <;>
    simp [display_image_on_layer, decode_event, h, isSleepEvent,
      List.countP_cons]

theorem mem_display_cases (r : RenderEnv) (W H : Nat) (q : String)
    (n : Nat) (e : Event) :
    e ∈ display_image_on_layer r W H q n →
      e = Event.setLayer n ∨ e = decode_event r W H q
        ∨ e = Event.decodeError q := by
  intro h
  by_cases hd : r.decodeOk q
  · simp only [display_image_on_layer, if_pos hd, List.mem_cons,
      List.not_mem_nil, or_false] at h
    rcases h with h | h
    · exact Or.inl h
    · exact Or.inr (Or.inl h)
  · simp only [display_image_on_layer, if_neg hd, List.mem_cons,
      List.not_mem_nil, or_false] at h
    rcases h with h | h
    · exact Or.inl h
    · exact Or.inr (Or.inr h)

theorem mem_fade_in_cases (r : RenderEnv) (W H : Nat) (q : String)
    (e : Event) :
    e ∈ fade_in_image r W H q →
      e = Event.setLayer 0 ∨ e = decode_event r W H q
        ∨ e = Event.decodeError q ∨ (∃ b, e = Event.setBacklight b)
        ∨ e = Event.present ∨ e = Event.sleepSeconds step_delay := by
  intro h
  simp only [fade_in_image, List.append_assoc, List.mem_append,
    List.mem_cons, List.not_mem_nil, or_false] at h
  rcases h with h | h | h | h
  · rcases mem_display_cases r W H q 0 e h with h' | h' | h'
    · exact Or.inl h'
    · exact Or.inr (Or.inl h')
    · exact Or.inr (Or.inr (Or.inl h'))
  · rcases mem_ramp_cases brightness_steps e h with h' | h' | h'
    · exact Or.inr (Or.inr (Or.inr (Or.inl h')))
    · exact Or.inr (Or.inr (Or.inr (Or.inr (Or.inl h'))))
    · exact Or.inr (Or.inr (Or.inr (Or.inr (Or.inr h'))))
  · exact Or.inr (Or.inr (Or.inr (Or.inl ⟨1, h⟩)))
  · exact Or.inr (Or.inr (Or.inr (Or.inr (Or.inl h))))

theorem mem_fade_out_cases (r : RenderEnv) (W H : Nat) (q : String)
    (e : Event) :
    e ∈ fade_out_image r W H q →
      e = Event.setLayer 0 ∨ e = decode_event r W H q
        ∨ e = Event.decodeError q ∨ (∃ b, e = Event.setBacklight b)
        ∨ e = Event.present ∨ e = Event.sleepSeconds step_delay
        ∨ e = Event.clearBlack := by
  intro h
  simp only [fade_out_image, List.append_assoc, List.mem_append,
    List.mem_cons, List.not_mem_nil, or_false] at h
  rcases h with h | h | h | h
  · rcases mem_display_cases r W H q 0 e h with h' | h' | h'
    · exact Or.inl h'
    · exact Or.inr (Or.inl h')
    · exact Or.inr (Or.inr (Or.inl h'))
  · rcases mem_ramp_cases brightness_steps.reverse e h with h' | h' | h'
    · exact Or.inr (Or.inr (Or.inr (Or.inl h')))
    · exact Or.inr (Or.inr (Or.inr (Or.inr (Or.inl h'))))
    · exact Or.inr (Or.inr (Or.inr (Or.inr (Or.inr (Or.inl h')))))
  · exact Or.inr (Or.inr (Or.inr (Or.inr (Or.inr (Or.inr h)))))
  · exact Or.inr (Or.inr (Or.inr (Or.inr (Or.inl h))))

theorem runCycle_skip (W H : Nat) (ps : List String) (env : CycleEnv)
    (s : LoopState) (h : env.fetchOk = false ∨ env.saveOk = false) :
    (runCycle W H ps env s).2 =
      (if s.firstImage then [Event.displayText "Fetching Image..."] else [])
      ++ fetch_image env.fetchOk
          (generate_unique_prompt env.time (ps.getD s.promptIndex ""))
      ++ [Event.sleepSeconds 7]
    ∧ (runCycle W H ps env s).1
        = ⟨(s.promptIndex + 1) % ps.length, s.prevFilepath, false⟩ := by
  rcases h with h | h
  · constructor <;> simp [runCycle, h]
  · cases hf : env.fetchOk <;>
      constructor <;> simp [runCycle, save_image_to_sd, h, hf]

theorem runCycle_promptIndex (W H : Nat) (ps : List String)
    (env : CycleEnv) (s : LoopState) :
    ((runCycle W H ps env s).1).promptIndex
      = (s.promptIndex + 1) % ps.length := by
  cases hf : env.fetchOk <;> cases hs : env.saveOk <;>
    simp [runCycle, save_image_to_sd, hf, hs]

/-- C5 counterexample: in the very first successful cycle (no
prior settled image), the new image is not presented directly with the
backlight treated as already full: the full fade-in ramp runs, writing
the backlight 0.0, 0.1, …, 1.0 and then pinning 1.0. -/
theorem spec_C5_counterexample :
    backlights (runCycle 240 240 ["a"] okEnv ⟨0, none, true⟩).2
      = brightness_steps ++ [1]
    ∧ brightness_steps.get? 0 = some 0
    ∧ brightness_steps.get? 5 = some (1 / 2) := by
  refine ⟨?_, ?_, ?_⟩
  · rw [runCycle_first_trace 240 240 ["a"] okEnv ⟨0, none, true⟩ rfl rfl rfl]
    simp only [backlights_append, backlights_fade_in]
    simp [backlights, fetch_image]
  · rw [brightness_steps_eq]
    rfl
  · rw [brightness_steps_eq]
    rfl

/-- C5 amended: in the first successful cycle (no prior settled
image) only the fade-out and the deletion are skipped: the new image is
written, then presented via the standard fade-in (decode, backlight
ramp 0.0 → 1.0, pin at 1.0), no file is deleted, the screen is never
cleared to black, and the new file becomes the settled image. -/
theorem spec_C5_amended (W H : Nat) (ps : List String) (env : CycleEnv)
    (s : LoopState)
    (hf : env.fetchOk = true) (hs : env.saveOk = true)
    (hp : s.prevFilepath = none) :
    (runCycle W H ps env s).2 =
      (if s.firstImage then [Event.displayText "Fetching Image..."] else [])
      ++ fetch_image env.fetchOk
          (generate_unique_prompt env.time (ps.getD s.promptIndex ""))
      ++ [Event.writeFile (next_filepath_of ps env s)]
      ++ fade_in_image env.render W H (next_filepath_of ps env s)
      ++ [Event.sleepSeconds 7]
    ∧ (∀ p ok, Event.deleteFile p ok ∉ (runCycle W H ps env s).2)
    ∧ Event.clearBlack ∉ (runCycle W H ps env s).2
    ∧ backlights (runCycle W H ps env s).2 = brightness_steps ++ [1]
    ∧ (runCycle W H ps env s).1.prevFilepath
        = some (next_filepath_of ps env s) := by
  have ht := runCycle_first_trace W H ps env s hf hs hp
  refine ⟨ht, ?_, ?_, ?_, ?_⟩
  · intro p ok hmem
    rw [ht] at hmem
    simp only [List.append_assoc, List.mem_append, List.mem_cons,
      List.not_mem_nil, or_false] at hmem
    rcases hmem with h | h | h | h | h
    · cases hfi : s.firstImage <;> rw [hfi] at h <;> simp at h
    · simp [fetch_image] at h
    · exact Event.noConfusion h
    · rcases mem_fade_in_cases _ W H _ _ h with h' | h' | h' | ⟨b, h'⟩ | h' | h' <;>
        exact Event.noConfusion h'
    · exact Event.noConfusion h
  · intro hmem
    rw [ht] at hmem
    simp only [List.append_assoc, List.mem_append, List.mem_cons,
      List.not_mem_nil, or_false] at hmem
    rcases hmem with h | h | h | h | h
    · cases hfi : s.firstImage <;> rw [hfi] at h <;> simp at h
    · simp [fetch_image] at h
    · exact Event.noConfusion h
    · rcases mem_fade_in_cases _ W H _ _ h with h' | h' | h' | ⟨b, h'⟩ | h' | h' <;>
        exact Event.noConfusion h'
    · exact Event.noConfusion h
  · rw [ht]
    simp only [backlights_append, backlights_fade_in]
    cases hfi : s.firstImage <;> simp [hfi, backlights, fetch_image]
  · cases hf' : env.fetchOk
    · rw [hf'] at hf; exact Bool.noConfusion hf
    · simp [runCycle, save_image_to_sd, hf', hs, hp, next_filepath_of]

/-- Witness for the amended C5 at a concrete bootstrap cycle. -/
theorem spec_C5_amended_witness :
    (runCycle 240 240 ["a"] okEnv ⟨0, none, true⟩).2 =
      (if (true : Bool) then [Event.displayText "Fetching Image..."] else [])
      ++ fetch_image okEnv.fetchOk (generate_unique_prompt okEnv.time "a")
      ++ [Event.writeFile (next_filepath_of ["a"] okEnv ⟨0, none, true⟩)]
      ++ fade_in_image okEnv.render 240 240
          (next_filepath_of ["a"] okEnv ⟨0, none, true⟩)
      ++ [Event.sleepSeconds 7]
    ∧ (∀ p ok, Event.deleteFile p ok
        ∉ (runCycle 240 240 ["a"] okEnv ⟨0, none, true⟩).2)
    ∧ Event.clearBlack ∉ (runCycle 240 240 ["a"] okEnv ⟨0, none, true⟩).2
    ∧ backlights (runCycle 240 240 ["a"] okEnv ⟨0, none, true⟩).2
        = brightness_steps ++ [1]
    ∧ (runCycle 240 240 ["a"] okEnv ⟨0, none, true⟩).1.prevFilepath
        = some (next_filepath_of ["a"] okEnv ⟨0, none, true⟩) :=
  spec_C5_amended 240 240 ["a"] okEnv ⟨0, none, true⟩ rfl rfl rfl

/-- C9: a cycle whose fetch fails or whose SD write fails is
skipped without retry: the settled image and its file handle are
unchanged, no file is written or deleted, nothing is decoded, the
backlight is never touched, exactly one fetch is attempted, the trace
ends with the fixed 7-unit inter-cycle sleep, and the cursor has moved
to the next prompt. -/
theorem spec_C9 (W H : Nat) (ps : List String) (env : CycleEnv)
    (s : LoopState) (h : env.fetchOk = false ∨ env.saveOk = false) :
    (runCycle W H ps env s).1.prevFilepath = s.prevFilepath
    ∧ (runCycle W H ps env s).1.promptIndex
        = (s.promptIndex + 1) % ps.length
    ∧ backlights (runCycle W H ps env s).2 = []
    ∧ (∀ p x y, Event.decode p x y ∉ (runCycle W H ps env s).2)
    ∧ (∀ p, Event.decodeError p ∉ (runCycle W H ps env s).2)
    ∧ (∀ p ok, Event.deleteFile p ok ∉ (runCycle W H ps env s).2)
    ∧ (∀ p, Event.writeFile p ∉ (runCycle W H ps env s).2)
    ∧ ((runCycle W H ps env s).2).getLast? = some (Event.sleepSeconds 7)
    ∧ ((runCycle W H ps env s).2).countP
        (fun e => match e with
          | Event.fetch _ _ => true
          | _ => false) = 1 := by
  obtain ⟨ht, hst⟩ := runCycle_skip W H ps env s h
  rw [ht, hst]
  cases hfi : s.firstImage <;>
    simp [backlights, fetch_image, List.getLast?_append, List.countP_cons,
      List.countP_append]

/-- Witness for C9 at a concrete cycle whose fetch fails. -/
theorem spec_C9_witness :
    (runCycle 240 240 ["a"] fetchFailEnv prevState).1.prevFilepath
        = prevState.prevFilepath
    ∧ (runCycle 240 240 ["a"] fetchFailEnv prevState).1.promptIndex
        = (prevState.promptIndex + 1) % (["a"] : List String).length
    ∧ backlights (runCycle 240 240 ["a"] fetchFailEnv prevState).2 = []
    ∧ (∀ p x y, Event.decode p x y
        ∉ (runCycle 240 240 ["a"] fetchFailEnv prevState).2)
    ∧ (∀ p, Event.decodeError p
        ∉ (runCycle 240 240 ["a"] fetchFailEnv prevState).2)
    ∧ (∀ p ok, Event.deleteFile p ok
        ∉ (runCycle 240 240 ["a"] fetchFailEnv prevState).2)
    ∧ (∀ p, Event.writeFile p
        ∉ (runCycle 240 240 ["a"] fetchFailEnv prevState).2)
    ∧ ((runCycle 240 240 ["a"] fetchFailEnv prevState).2).getLast?
        = some (Event.sleepSeconds 7)
    ∧ ((runCycle 240 240 ["a"] fetchFailEnv prevState).2).countP
        (fun e => match e with
          | Event.fetch _ _ => true
          | _ => false) = 1 :=
  spec_C9 240 240 ["a"] fetchFailEnv prevState (Or.inl rfl)

/-- C10: every render targets layer 0: any `set_layer` call issued
during a cycle (by the fade-out of the previous image or the fade-in of
the new one) selects layer 0, so the outgoing and incoming images share
the one layer and a second layer is never addressed. -/
theorem spec_C10 (W H : Nat) (ps : List String) (env : CycleEnv)
    (s : LoopState) (n : Nat) :
    Event.setLayer n ∈ (runCycle W H ps env s).2 → n = 0 := by
  intro hmem
  by_cases hf : env.fetchOk
  · by_cases hs : env.saveOk
    · cases hpc : s.prevFilepath with
      | none =>
        rw [runCycle_first_trace W H ps env s hf hs hpc] at hmem
        simp only [List.append_assoc, List.mem_append, List.mem_cons,
          List.not_mem_nil, or_false] at hmem
        rcases hmem with h | h | h | h | h
        · cases hfi : s.firstImage <;> rw [hfi] at h <;> simp at h
        · simp [fetch_image] at h
        · exact Event.noConfusion h
        · rcases mem_fade_in_cases _ W H _ _ h with h' | h' | h' | ⟨b, h'⟩ | h' | h'
          · exact (Event.setLayer.inj h')
          all_goals exact Event.noConfusion h'
        · exact Event.noConfusion h
      | some p =>
        rw [runCycle_success_trace W H ps env s p hf hs hpc] at hmem
        simp only [List.append_assoc, List.mem_append, List.mem_cons,
          List.not_mem_nil, or_false] at hmem
        rcases hmem with h | h | h | h | h | h
        · cases hfi : s.firstImage <;> rw [hfi] at h <;> simp at h
        · simp [fetch_image] at h
        · exact Event.noConfusion h
        · rcases mem_fade_out_cases _ W H _ _ h
            with h' | h' | h' | ⟨b, h'⟩ | h' | h' | h'
          · exact (Event.setLayer.inj h')
          all_goals exact Event.noConfusion h'
        · rcases mem_fade_in_cases _ W H _ _ h with h' | h' | h' | ⟨b, h'⟩ | h' | h'
          · exact (Event.setLayer.inj h')
          all_goals exact Event.noConfusion h'
        · rcases h with h | h <;> exact Event.noConfusion h
    · rw [(runCycle_skip W H ps env s (Or.inr (by simpa using hs))).1] at hmem
      simp only [List.append_assoc, List.mem_append, List.mem_cons,
        List.not_mem_nil, or_false] at hmem
      rcases hmem with h | h | h
      · cases hfi : s.firstImage <;> rw [hfi] at h <;> simp at h
      · simp [fetch_image] at h
      · exact Event.noConfusion h
  · rw [(runCycle_skip W H ps env s (Or.inl (by simpa using hf))).1] at hmem
    simp only [List.append_assoc, List.mem_append, List.mem_cons,
      List.not_mem_nil, or_false] at hmem
    rcases hmem with h | h | h
    · cases hfi : s.firstImage <;> rw [hfi] at h <;> simp at h
    · simp [fetch_image] at h
    · exact Event.noConfusion h

/-- Witness for C10 at a concrete successful cycle. -/
theorem spec_C10_witness :
    Event.setLayer 0 ∈ (runCycle 240 240 ["a"] okEnv prevState).2
    ∧ (0 : Nat) = 0 :=
  ⟨by decide, spec_C10 240 240 ["a"] okEnv prevState 0 (by decide)⟩

/-- C4 counterexample: with the SD mount failing at startup, the
program does not halt: the failure is only logged ("SD Card Mount
Failed") and the slideshow loop still runs, attempting a fetch. -/
theorem spec_C4_counterexample :
    Event.displayText "SD Card Mount Failed"
        ∈ (endless_photo_viewer 240 240 ["a"] "10.0.0.2" false true []
            [okEnv]).2
    ∧ Event.fetch (fetch_url "a 1") true
        ∈ (endless_photo_viewer 240 240 ["a"] "10.0.0.2" false true []
            [okEnv]).2 := by
  constructor <;> decide

/-- C4 amended: a mount failure at startup is caught inside
`mount_sd`: "SD Card Mount Failed" is shown, and the program then
enters the slideshow loop exactly as after a successful mount (the loop
trace and final state are independent of the mount outcome); storage
failures only surface later as skipped cycles. -/
theorem spec_C4_amended (W H : Nat) (ps : List String) (ip : String)
    (listOk : Bool) (files : List String) (envs : List CycleEnv) :
    (endless_photo_viewer W H ps ip false listOk files envs).2
      = connect_to_wifi ip ++ mount_sd false ++ clear_gallery listOk files
        ++ (runCycles W H ps envs ⟨0, none, true⟩).2
    ∧ Event.displayText "SD Card Mount Failed" ∈ mount_sd false
    ∧ (endless_photo_viewer W H ps ip false listOk files envs).1
      = (endless_photo_viewer W H ps ip true listOk files envs).1 := by
  refine ⟨?_, by simp [mount_sd], rfl⟩
  simp [endless_photo_viewer]

/-- C6 counterexample: a 482×100 image against 240×240 bounds is
halved to 241×100, and the x offset computed by the code is
`(240 − 241) // 2 = −1`: negative offsets are not clamped to zero. -/
theorem spec_C6_counterexample :
    chooseScale 240 240 482 100 = Scale.half
    ∧ scaledDim Scale.half 482 = 241
    ∧ imgOffset 240 241 = -1
    ∧ ¬ 0 ≤ imgOffset 240 241 := by
  refine ⟨rfl, rfl, by decide, by decide⟩

/-- C6 amended: the scale is half iff an intrinsic dimension
exceeds its bound, else full (with full scale leaving dimensions
unchanged); each placement offset equals `(display_dim − scaled_dim)`
floor-divided by 2, with no clamping, and is nonnegative exactly in the
case `scaled_dim ≤ display_dim`. -/
theorem spec_C6_amended (W H w h : Nat) :
    (chooseScale W H w h = Scale.half ↔ (W < w ∨ H < h))
    ∧ (∀ D d : Nat, imgOffset D d = ((D : Int) - (d : Int)).fdiv 2)
    ∧ (∀ D d : Nat, d ≤ D → 0 ≤ imgOffset D d)
    ∧ (¬ (W < w ∨ H < h) →
        scaledDim (chooseScale W H w h) w = w
        ∧ scaledDim (chooseScale W H w h) h = h) := by
  have hcond : (decide (w > W) || decide (h > H)) = true ↔ (W < w ∨ H < h) := by
    simp [gt_iff_lt]
  refine ⟨?_, fun D d => rfl, ?_, ?_⟩
  · constructor
    · intro hcs
      by_contra hc
      rw [chooseScale, if_neg (fun hx => hc (hcond.mp hx))] at hcs
      exact Scale.noConfusion hcs
    · intro hc
      rw [chooseScale, if_pos (hcond.mpr hc)]
  · intro D d hdD
    have h0 : (0 : Int) ≤ (D : Int) - (d : Int) := by omega
    exact Int.fdiv_nonneg h0 (by norm_num)
  · intro hc
    rw [chooseScale, if_neg (fun hx => hc (hcond.mp hx))]
    constructor <;> simp [scaledDim]

/-- Witness for the amended C6 at concrete dimensions. -/
theorem spec_C6_amended_witness :
    (chooseScale 240 240 482 100 = Scale.half ↔ (240 < 482 ∨ 240 < 100))
    ∧ 0 ≤ imgOffset 240 100 :=
  ⟨(spec_C6_amended 240 240 482 100).1,
   (spec_C6_amended 240 240 482 100).2.2.1 240 100 (by decide)⟩

/-- C7: every fade-in ramps the single shared backlight through
exactly the 11 values 0.0, 0.1, …, 1.0 in order, one fixed-length sleep
of `1.5 / 11` per step (11 sleeps, totalling 1.5), and on every path
the last write pins the control to exactly 1. -/
theorem spec_C7 (r : RenderEnv) (W H : Nat) (fp : String) :
    backlights (fade_in_image r W H fp) = brightness_steps ++ [1]
    ∧ brightness_steps.length = 11
    ∧ (∀ i : Nat, i < 11 → brightness_steps.get? i = some ((i : ℚ) / 10))
    ∧ (backlights (fade_in_image r W H fp)).getLast? = some 1
    ∧ (fade_in_image r W H fp).countP isSleepEvent = 11
    ∧ (∀ t : ℚ, Event.sleepSeconds t ∈ fade_in_image r W H fp →
        t = step_delay)
    ∧ step_delay * 11 = 3 / 2 := by
  refine ⟨backlights_fade_in r W H fp, by decide, ?_, ?_, ?_, ?_, ?_⟩
  · intro i hi
    have h1 : (List.range 11).get? i = some i := List.get?_range hi
    show ((List.range 11).map (fun i : Nat => (i : ℚ) / 10)).get? i
      = some ((i : ℚ) / 10)
    rw [List.get?_map, h1]
    rfl
  · rw [backlights_fade_in]
    simp
  · have h1 : (fade_in_image r W H fp).countP isSleepEvent
        = (display_image_on_layer r W H fp 0).countP isSleepEvent
          + ((rampEvents brightness_steps).countP isSleepEvent
            + ([Event.setBacklight 1, Event.present]).countP isSleepEvent) := by
      simp [fade_in_image, List.countP_append]
    rw [h1, countP_sleep_display, countP_sleep_ramp]
    have hlen : brightness_steps.length = 11 := by decide
    rw [hlen]
    rfl
  · intro t ht
    simp only [fade_in_image, List.append_assoc, List.mem_append,
      List.mem_cons, List.not_mem_nil, or_false] at ht
    rcases ht with h | h | h | h
    · rcases mem_display_cases r W H fp 0 _ h with h' | h' | h' <;>
        exact Event.noConfusion h'
    · exact sleep_mem_ramp brightness_steps t h
    · exact Event.noConfusion h
    · exact Event.noConfusion h
  · have hlen : brightness_steps.length = 11 := by decide
    rw [step_delay, hlen]
    norm_num

/-- Witness for C7 at a concrete fade-in. -/
theorem spec_C7_witness :
    brightness_steps.get? 10 = some ((10 : ℚ) / 10)
    ∧ step_delay = step_delay
    ∧ step_delay * 11 = 3 / 2 :=
  ⟨(spec_C7 okRender 240 240 "w.jpg").2.2.1 10 (by decide),
   (spec_C7 okRender 240 240 "w.jpg").2.2.2.2.2.1 step_delay
     (by simp [fade_in_image, display_image_on_layer, decode_event,
       okRender, rampEvents, brightness_steps_eq]),
   (spec_C7 okRender 240 240 "w.jpg").2.2.2.2.2.2⟩

theorem runCycles_promptIndex (W H : Nat) (ps : List String)
    (hN : 0 < ps.length) :
    ∀ (envs : List CycleEnv) (s : LoopState), s.promptIndex < ps.length →
      ((runCycles W H ps envs s).1).promptIndex
        = (s.promptIndex + envs.length) % ps.length := by
  intro envs
  induction envs with
  | nil =>
    intro s hs
    simpa [runCycles] using (Nat.mod_eq_of_lt hs).symm
  | cons e rest ih =>
    intro s hs
    simp only [runCycles, List.length_cons]
    rw [ih _ (by rw [runCycle_promptIndex]; exact Nat.mod_lt _ hN)]
    rw [runCycle_promptIndex, Nat.mod_add_mod]
    congr 1
    omega

/-- C8: for any prompt sequence of positive length N, the cursor
advances by exactly one modulo N on every cycle regardless of outcome,
so after K cycles from startup it equals K mod N, and it always stays
within [0, N). -/
theorem spec_C8 (W H : Nat) (ps : List String) (envs : List CycleEnv)
    (hN : 0 < ps.length) :
    ((runCycles W H ps envs ⟨0, none, true⟩).1).promptIndex
        = envs.length % ps.length
    ∧ ((runCycles W H ps envs ⟨0, none, true⟩).1).promptIndex < ps.length
    ∧ (∀ (env : CycleEnv) (s : LoopState),
        ((runCycle W H ps env s).1).promptIndex
          = (s.promptIndex + 1) % ps.length) := by
  have h0 := runCycles_promptIndex W H ps hN envs ⟨0, none, true⟩ hN
  simp only [Nat.zero_add] at h0
  exact ⟨h0, h0 ▸ Nat.mod_lt _ hN, fun env s => runCycle_promptIndex W H ps env s⟩

/-- Witness for C8: two cycles (one success, one fetch failure) over the
source's ten prompts leave the cursor at 2. -/
theorem spec_C8_witness :
    ((runCycles 240 240 prompts [okEnv, fetchFailEnv] ⟨0, none, true⟩).1).promptIndex
        = ([okEnv, fetchFailEnv] : List CycleEnv).length % prompts.length
    ∧ ((runCycles 240 240 prompts [okEnv, fetchFailEnv]
        ⟨0, none, true⟩).1).promptIndex < prompts.length
    ∧ (∀ (env : CycleEnv) (s : LoopState),
        ((runCycle 240 240 prompts env s).1).promptIndex
          = (s.promptIndex + 1) % prompts.length) :=
  spec_C8 240 240 prompts [okEnv, fetchFailEnv] (by decide)
